import Mathlib

/-
Verification of the FlightBoard acquisition and enrichment core.

Shallow embedding of `src/data_sources.py` and `src/enrichment.py`.
Python floats are modelled as rationals (ℚ); the transcendental helpers
(`_haversine_nm` and `round(x, 1)`) are passed in as explicit function
parameters `dist` / `rnd`, since the filtering/sorting/caching logic under
verification is independent of their numeric values.  Fallible operations
(HTTP requests, JSON parsing, SQLite statements) are modelled with
`Except`/oracle inputs supplied through an environment record.
-/

/-- Flight record, mirroring the `Flight` dataclass in `src/data_sources.py`
(lines 25-46).  Strings default to `""`, numbers to `0`, `on_ground` to
`false`; an empty/zero value represents absent data. -/
structure Flight where
  callsign : String := ""
  airline : String := ""
  aircraft_type : String := ""
  registration : String := ""
  origin_iata : String := ""
  origin_name : String := ""
  destination_iata : String := ""
  destination_name : String := ""
  latitude : ℚ := 0
  longitude : ℚ := 0
  altitude : Int := 0
  ground_speed : Int := 0
  heading : Int := 0
  vertical_speed : Int := 0
  distance_nm : ℚ := 0
  squawk : String := ""
  flight_id : String := ""
  on_ground : Bool := false
  hex_code : String := ""
deriving DecidableEq, Repr

/-- Per-instance provider state of `DataSource.__init__`
(`src/data_sources.py` lines 91-97): observer position, search radius,
the cached list from the last successful poll, its timestamp and the TTL. -/
structure ProviderState where
  lat : ℚ
  lon : ℚ
  radius_nm : ℚ
  cache : List Flight := []
  last_fetch_time : ℚ := 0
  cache_ttl : ℚ := 5
deriving DecidableEq, Repr

/-- The per-record filter/annotate loop of `DataSource.fetch_flights`
(`src/data_sources.py` lines 116-125): drop on-ground or slow+low records,
then for records with non-zero lat/lon set `distance_nm := round(dist, 1)`
and keep the record iff it is within the radius.  `dist` models
`_haversine_nm` (which can raise on float domain errors) and `rnd` models
`round(·, 1)`; a failure of `dist` aborts the whole loop, as an exception
does in Python. -/
def filterMapFlights (lat lon radius : ℚ)
    (dist : ℚ → ℚ → ℚ → ℚ → Except Unit ℚ) (rnd : ℚ → ℚ) :
    List Flight → Except Unit (List Flight)
  | [] => .ok []
  | f :: fs =>
    if f.on_ground ∨ (f.altitude < 100 ∧ f.ground_speed < 50) then
      filterMapFlights lat lon radius dist rnd fs
    else if f.latitude ≠ 0 ∧ f.longitude ≠ 0 then
      match dist lat lon f.latitude f.longitude with
      | .error e => .error e
      | .ok d =>
        let f' := { f with distance_nm := rnd d }
        match filterMapFlights lat lon radius dist rnd fs with
        | .error e => .error e
        | .ok rest => .ok (if f'.distance_nm ≤ radius then f' :: rest else rest)
    else filterMapFlights lat lon radius dist rnd fs

/-- Insert a flight into a list sorted ascending by `distance_nm`,
keeping the inserted element before later equal keys (stability, as in
Python's `list.sort`). -/
def insertByDistance (f : Flight) : List Flight → List Flight
  | [] => [f]
  | g :: gs =>
    if f.distance_nm ≤ g.distance_nm then f :: g :: gs
    else g :: insertByDistance f gs

/-- Stable ascending sort by `distance_nm`, modelling
`flights.sort(key=lambda f: f.distance_nm)` (`src/data_sources.py` line 127). -/
def sortByDistance : List Flight → List Flight
  | [] => []
  | f :: fs => insertByDistance f (sortByDistance fs)

/-- The body of the `try` block of `DataSource.fetch_flights`
(lines 114-127): run the raw fetch, the filter loop and the sort; any
exception anywhere inside surfaces as `.error`. -/
def processRaw (st : ProviderState) (raw : Except Unit (List Flight))
    (dist : ℚ → ℚ → ℚ → ℚ → Except Unit ℚ) (rnd : ℚ → ℚ) :
    Except Unit (List Flight) :=
  match raw with
  | .error e => .error e
  | .ok l =>
    match filterMapFlights st.lat st.lon st.radius_nm dist rnd l with
    | .error e => .error e
    | .ok fs => .ok (sortByDistance fs)

/-- `DataSource.fetch_flights` (`src/data_sources.py` lines 108-135).
`raw` is the outcome of `self._fetch_raw()`.  Returns the produced list,
the successor provider state, and whether the raw fetch was attempted
(`False` on the TTL cache-hit path).  The `except` clause returns the
previous cache and leaves `_cache`/`_last_fetch_time` untouched, and no
error ever escapes (the return type is not fallible). -/
def fetch_flights (st : ProviderState) (now : ℚ) (raw : Except Unit (List Flight))
    (dist : ℚ → ℚ → ℚ → ℚ → Except Unit ℚ) (rnd : ℚ → ℚ) :
    List Flight × ProviderState × Bool :=
  if now - st.last_fetch_time < st.cache_ttl ∧ st.cache ≠ [] then
    (st.cache, st, false)
  else
    match processRaw st raw dist rnd with
    | .ok flights => (flights, { st with cache := flights, last_fetch_time := now }, true)
    | .error _ => (st.cache, st, true)

/-- The per-record loop of `FR24Source.fetch_flights`
(`src/data_sources.py` lines 320-330): identical to the base wrapper's
loop except that in sandbox mode the radius filter is skipped. -/
def fr24FilterFlights (lat lon radius : ℚ) (sandbox : Bool)
    (dist : ℚ → ℚ → ℚ → ℚ → Except Unit ℚ) (rnd : ℚ → ℚ) :
    List Flight → Except Unit (List Flight)
  | [] => .ok []
  | f :: fs =>
    if f.on_ground ∨ (f.altitude < 100 ∧ f.ground_speed < 50) then
      fr24FilterFlights lat lon radius sandbox dist rnd fs
    else if f.latitude ≠ 0 ∧ f.longitude ≠ 0 then
      match dist lat lon f.latitude f.longitude with
      | .error e => .error e
      | .ok d =>
        let f' := { f with distance_nm := rnd d }
        match fr24FilterFlights lat lon radius sandbox dist rnd fs with
        | .error e => .error e
        | .ok rest =>
          .ok (if sandbox = false ∧ f'.distance_nm > radius then rest else f' :: rest)
    else fr24FilterFlights lat lon radius sandbox dist rnd fs

/-- Body of the `try` block of `FR24Source.fetch_flights` (lines 318-332). -/
def fr24ProcessRaw (st : ProviderState) (sandbox : Bool)
    (raw : Except Unit (List Flight))
    (dist : ℚ → ℚ → ℚ → ℚ → Except Unit ℚ) (rnd : ℚ → ℚ) :
    Except Unit (List Flight) :=
  match raw with
  | .error e => .error e
  | .ok l =>
    match fr24FilterFlights st.lat st.lon st.radius_nm sandbox dist rnd l with
    | .error e => .error e
    | .ok fs => .ok (sortByDistance fs)

/-- `FR24Source.fetch_flights` (`src/data_sources.py` lines 312-341):
same cache/TTL/error structure as the base wrapper, with the
sandbox-aware filter loop. -/
def fr24_fetch_flights (st : ProviderState) (sandbox : Bool) (now : ℚ)
    (raw : Except Unit (List Flight))
    (dist : ℚ → ℚ → ℚ → ℚ → Except Unit ℚ) (rnd : ℚ → ℚ) :
    List Flight × ProviderState × Bool :=
  if now - st.last_fetch_time < st.cache_ttl ∧ st.cache ≠ [] then
    (st.cache, st, false)
  else
    match fr24ProcessRaw st sandbox raw dist rnd with
    | .ok flights => (flights, { st with cache := flights, last_fetch_time := now }, true)
    | .error _ => (st.cache, st, true)

/-- Row of the `aircraft` table (`src/enrichment.py` lines 158-169),
keyed by `hex`. -/
structure AircraftRow where
  hex : String
  registration : String := ""
  typecode : String := ""
  model : String := ""
  operator : String := ""
  operator_icao : String := ""
  operator_iata : String := ""
  owner : String := ""
  source : String := "opensky"
  updated_at : ℚ := 0
deriving DecidableEq, Repr

/-- Row of the `routes` table (`src/enrichment.py` lines 176-189),
keyed by `callsign`. -/
structure RouteRow where
  callsign : String
  dep_iata : String := ""
  dep_icao : String := ""
  dep_name : String := ""
  arr_iata : String := ""
  arr_icao : String := ""
  arr_name : String := ""
  airline_name : String := ""
  aircraft_icao : String := ""
  flight_iata : String := ""
  source : String := "airlabs"
  updated_at : ℚ := 0
deriving DecidableEq, Repr

/-- Row of the `airports` table (`src/enrichment.py` lines 192-202),
keyed by `iata`. -/
structure AirportRow where
  iata : String
  icao : String := ""
  name : String := ""
  city : String := ""
  country : String := ""
  lat : ℚ := 0
  lon : ℚ := 0
  source : String := "airlabs"
  updated_at : ℚ := 0
deriving DecidableEq, Repr

/-- One element of the AirLabs `/flights` response list
(`src/enrichment.py` lines 478-534).  A JSON `null` field is represented
by `""`, matching the `(item.get(...) or "")` idiom. -/
structure ApiFlightItem where
  dep_iata : String := ""
  dep_icao : String := ""
  arr_iata : String := ""
  arr_icao : String := ""
  airline_name : String := ""
  airline_icao : String := ""
  aircraft_icao : String := ""
  flight_iata : String := ""
  hex : String := ""
  reg_number : String := ""
deriving DecidableEq, Repr

/-- One element of the AirLabs `/airports` response list
(`src/enrichment.py` lines 646-652). -/
structure ApiAirport where
  name : String := ""
  city : String := ""
  country_code : String := ""
  icao_code : String := ""
  lat : ℚ := 0
  lon : ℚ := 0
deriving DecidableEq, Repr

/-- Outcome of an HTTP GET: the request may raise (`exn`), or return a
status code together with a body whose JSON decoding may itself fail. -/
inductive HttpResult (α : Type) where
  | exn
  | ok (statusCode : Nat) (body : Except Unit α)

/-- Mutable state of an `Enricher` instance (`src/enrichment.py`
lines 107-123): connection flag, API key, the three persisted tables, the
in-memory route miss-set, the session API-call counter and its bound.
(The declared `_aircraft_miss_cache` set is never read or written
elsewhere in the source and is omitted.)  `trace` is ghost state
recording one entry per outgoing HTTP request, appended exactly where the
Python code performs `session.get`. -/
structure EnricherState where
  hasConn : Bool := true
  airlabsKey : String := ""
  aircraft : List AircraftRow := []
  routes : List RouteRow := []
  airports : List AirportRow := []
  routeMissCache : List String := []
  apiCalls : Nat := 0
  maxApiCalls : Nat := 200
  trace : List String := []
deriving DecidableEq, Repr

/-- External world as seen by one `enrich` call: the current time, whether
SQLite statements raise (`dbFails`), and the AirLabs route/airport
endpoints as oracles. -/
structure Env where
  now : ℚ
  dbFails : Bool := false
  routeApi : String → HttpResult (List ApiFlightItem)
  airportApi : String → HttpResult (List ApiAirport)

/-- `INSERT OR REPLACE` keyed by the predicate `p`: replace every matching
row, or append the new row if none matches. -/
def upsertBy {α : Type} (p : α → Bool) (r : α) (l : List α) : List α :=
  if l.any p then l.map (fun x => if p x then r else x) else l ++ [r]

/-- `self._route_miss_cache.add(callsign)` (set semantics). -/
def addMiss (st : EnricherState) (callsign : String) : EnricherState :=
  if callsign ∈ st.routeMissCache then st
  else { st with routeMissCache := st.routeMissCache ++ [callsign] }

/-- `str.lower()` for the ASCII data this program handles, in a form the
kernel can evaluate (list-based rather than byte-position-based). -/
def asciiLower (s : String) : String := String.mk (s.data.map Char.toLower)

/-- `str.upper()` (ASCII), list-based. -/
def asciiUpper (s : String) : String := String.mk (s.data.map Char.toUpper)

/-- `str.strip()` with no argument: remove leading and trailing
whitespace, list-based. -/
def pyStrip (s : String) : String :=
  String.mk (((s.data.dropWhile Char.isWhitespace).reverse.dropWhile
    Char.isWhitespace).reverse)

/-- `s[:n]` string slicing, list-based. -/
def pyTake (s : String) (n : Nat) : String := String.mk (s.data.take n)

/-- Built-in airline ICAO code to name table (`src/enrichment.py`
lines 41-94, `AIRLINE_ICAO_MAP`). -/
def AIRLINE_ICAO_MAP : List (String × String) := [
  ("AAL", "AMERICAN AIRLINES"), ("AAR", "ASIANA"), ("ACA", "AIR CANADA"),
  ("AFR", "AIR FRANCE"), ("AIC", "AIR INDIA"), ("AMX", "AEROMEXICO"),
  ("ANA", "ALL NIPPON AIRWAYS"), ("ASA", "ALASKA AIRLINES"),
  ("AUA", "AUSTRIAN"), ("AUI", "UKRAINE INTL"), ("AZA", "ALITALIA"),
  ("BAW", "BRITISH AIRWAYS"), ("BCS", "EUROPEAN AIR CHARTER"),
  ("BEE", "BEE LINE"), ("BEL", "BRUSSELS AIRLINES"),
  ("BER", "GERMANIA"), ("BOX", "AEROLOGIC"),
  ("CAL", "CHINA AIRLINES"), ("CCA", "AIR CHINA"),
  ("CES", "CHINA EASTERN"), ("CFG", "CONDOR"),
  ("CLH", "LUFTHANSA CARGO"), ("CPA", "CATHAY PACIFIC"),
  ("CSN", "CHINA SOUTHERN"), ("CTN", "CROATIA AIRLINES"),
  ("CXA", "XIAMEN AIR"), ("DAL", "DELTA"),
  ("DLH", "LUFTHANSA"), ("EAL", "EASTERN AIRWAYS"),
  ("EDW", "EDELWEISS AIR"), ("EIN", "AER LINGUS"),
  ("EJU", "EASYJET EUROPE"), ("ELY", "EL AL"),
  ("ETD", "ETIHAD"), ("ETH", "ETHIOPIAN"),
  ("EVA", "EVA AIR"), ("EWG", "EUROWINGS"),
  ("EXS", "JET2"), ("EZE", "EASYJET EUROPE"),
  ("EZS", "EASYJET SWITZERLAND"), ("EZY", "EASYJET"),
  ("FDB", "FLYDUBAI"), ("FDX", "FEDEX"),
  ("FIN", "FINNAIR"), ("GEC", "LUFTHANSA CARGO"),
  ("GIA", "GARUDA"), ("GTI", "ATLAS AIR"),
  ("GWI", "GERMANWINGS"), ("HAL", "HAWAIIAN"),
  ("HVN", "VIETNAM AIRLINES"), ("IBE", "IBERIA"),
  ("IBK", "NORWEGIAN"), ("ICE", "ICELANDAIR"),
  ("JAL", "JAPAN AIRLINES"), ("JBU", "JETBLUE"),
  ("KAL", "KOREAN AIR"), ("KLM", "KLM"),
  ("KQA", "KENYA AIRWAYS"), ("LAN", "LATAM CHILE"),
  ("LOG", "LOGANAIR"), ("LOT", "LOT POLISH"),
  ("LZB", "WIZZ AIR"), ("MAH", "MALEV"),
  ("MAS", "MALAYSIA AIRLINES"), ("MSR", "EGYPTAIR"),
  ("NAX", "NORWEGIAN"), ("NKS", "SPIRIT AIRLINES"),
  ("NOZ", "NORWEGIAN AIR"), ("NPT", "WEST ATLANTIC"),
  ("OAL", "OLYMPIC"), ("PAC", "POLAR AIR CARGO"),
  ("PGT", "PEGASUS"), ("PIA", "PIA"),
  ("QFA", "QANTAS"), ("QTR", "QATAR AIRWAYS"),
  ("RAM", "ROYAL AIR MAROC"), ("ROT", "TAROM"),
  ("RYR", "RYANAIR"), ("RZO", "SAUDIA"),
  ("SAA", "SOUTH AFRICAN"), ("SAS", "SAS"),
  ("SIA", "SINGAPORE AIRLINES"), ("SKW", "SKYWEST"),
  ("SLK", "SILK AIR"), ("SQC", "SINGAPORE CARGO"),
  ("SWA", "SOUTHWEST"), ("SWR", "SWISS"),
  ("TAM", "LATAM BRASIL"), ("TAP", "TAP PORTUGAL"),
  ("THA", "THAI"), ("THY", "TURKISH AIRLINES"),
  ("TOM", "TUI"), ("TSC", "AIR TRANSAT"),
  ("TUI", "TUI FLY"), ("TVF", "TRANSAVIA FRANCE"),
  ("UAE", "EMIRATES"), ("UAL", "UNITED"),
  ("UPS", "UPS"), ("UZB", "UZBEKISTAN AIRWAYS"),
  ("VIR", "VIRGIN ATLANTIC"), ("VLG", "VUELING"),
  ("VOE", "VOLOTEA"), ("VOI", "VOLARIS"),
  ("VTG", "VOLGA-DNEPR"), ("WJA", "WESTJET"),
  ("WZZ", "WIZZ AIR"), ("WUK", "WIZZ AIR UK")]

/-- `if not flight.registration and value: flight.registration = value`. -/
def fillRegistration (f : Flight) (v : String) : Flight :=
  if f.registration = "" ∧ v ≠ "" then { f with registration := v } else f

/-- `if not flight.aircraft_type and value: flight.aircraft_type = value`. -/
def fillAircraftType (f : Flight) (v : String) : Flight :=
  if f.aircraft_type = "" ∧ v ≠ "" then { f with aircraft_type := v } else f

/-- `if not flight.airline and value: flight.airline = value`. -/
def fillAirline (f : Flight) (v : String) : Flight :=
  if f.airline = "" ∧ v ≠ "" then { f with airline := v } else f

/-- `if not flight.origin_iata and value: flight.origin_iata = value`. -/
def fillOriginIata (f : Flight) (v : String) : Flight :=
  if f.origin_iata = "" ∧ v ≠ "" then { f with origin_iata := v } else f

/-- `if not flight.origin_name and value: flight.origin_name = value`. -/
def fillOriginName (f : Flight) (v : String) : Flight :=
  if f.origin_name = "" ∧ v ≠ "" then { f with origin_name := v } else f

/-- `if not flight.destination_iata and value: ...`. -/
def fillDestinationIata (f : Flight) (v : String) : Flight :=
  if f.destination_iata = "" ∧ v ≠ "" then { f with destination_iata := v } else f

/-- `if not flight.destination_name and value: ...`. -/
def fillDestinationName (f : Flight) (v : String) : Flight :=
  if f.destination_name = "" ∧ v ≠ "" then { f with destination_name := v } else f

/-- `if not flight.airline: flight.airline = row["operator"] or row["owner"] or ""`
(`src/enrichment.py` lines 365-366). -/
def fillAirlineFromRow (f : Flight) (row : AircraftRow) : Flight :=
  if f.airline = "" then
    { f with airline := if row.operator ≠ "" then row.operator
                        else if row.owner ≠ "" then row.owner else "" }
  else f

/-- Step 1 of `Enricher.enrich` (`src/enrichment.py` lines 355-366): the
local `aircraft`-table lookup by hex.  The SQLite `execute` raises when
`dbFails`; that exception is not caught anywhere in `enrich`. -/
def enrich_hex_lookup (env : Env) (st : EnricherState) (f : Flight)
    (hex : String) : Except Unit Flight :=
  if hex = "" then .ok f
  else if env.dbFails then .error ()
  else
    match st.aircraft.find? (fun r => r.hex == hex) with
    | none => .ok f
    | some row =>
      .ok (fillAirlineFromRow
            (fillAircraftType (fillRegistration f row.registration) row.typecode) row)

/-- `Enricher._enrich_from_callsign` (`src/enrichment.py` lines 375-389):
if the airline is still empty and the stripped callsign has at least 4
characters, an alphabetic 3-letter upper-cased code found in
`AIRLINE_ICAO_MAP` fills the airline.  (`str.isalpha` is modelled with
`Char.isAlpha`; callsigns are ASCII.) -/
def enrich_from_callsign (f : Flight) : Flight :=
  if f.airline ≠ "" then f
  else
    let cs := pyStrip f.callsign
    if 4 ≤ cs.length then
      let pfx := asciiUpper (pyTake cs 3)
      if pfx ≠ "" ∧ pfx.toList.all Char.isAlpha then
        match AIRLINE_ICAO_MAP.lookup pfx with
        | some nm => { f with airline := nm }
        | none => f
      else f
    else f

/-- `Enricher._apply_route` body shared with the in-call application of a
fresh AirLabs result (`src/enrichment.py` lines 415-428 and 511-522):
fill each of the six route-derived fields only when currently empty and
the incoming value is non-empty. -/
def apply_airlabs (f : Flight)
    (dep_iata dep_name arr_iata arr_name airline_name aircraft_icao : String) :
    Flight :=
  fillAircraftType
    (fillAirline
      (fillDestinationName
        (fillDestinationIata
          (fillOriginName (fillOriginIata f dep_iata) dep_name)
          arr_iata)
        arr_name)
      airline_name)
    aircraft_icao

/-- `Enricher._apply_route` (`src/enrichment.py` lines 415-428). -/
def apply_route (f : Flight) (row : RouteRow) : Flight :=
  apply_airlabs f row.dep_iata row.dep_name row.arr_iata row.arr_name
    row.airline_name row.aircraft_icao

/-- `Enricher._cache_route` (`src/enrichment.py` lines 540-564):
`INSERT OR REPLACE` of a full route row keyed by callsign, source
`"airlabs"`, `updated_at = time.time()`. -/
def cache_route (st : EnricherState) (r : RouteRow) : EnricherState :=
  { st with routes := upsertBy (fun x => x.callsign == r.callsign) r st.routes }

/-- `_cache_route(callsign, {})`: the negative ("no result") route entry,
all data fields empty (`dict.get` defaults). -/
def emptyRouteRow (callsign : String) (now : ℚ) : RouteRow :=
  { callsign := callsign, source := "airlabs", updated_at := now }

/-- `Enricher._cache_aircraft` (`src/enrichment.py` lines 566-610): merge
API-sourced aircraft data into the `aircraft` table, only filling fields
that are currently empty; inserts a fresh row when the hex is unknown. -/
def cache_aircraft (st : EnricherState) (hex registration typecode op opIcao : String)
    (now : ℚ) : EnricherState :=
  if hex = "" then st
  else
    match st.aircraft.find? (fun r => r.hex == hex) with
    | some ex =>
      let updReg := registration ≠ "" ∧ ex.registration = ""
      let updTc := typecode ≠ "" ∧ ex.typecode = ""
      let updOp := op ≠ "" ∧ ex.operator = ""
      let updOpIc := opIcao ≠ "" ∧ ex.operator_icao = ""
      if updReg ∨ updTc ∨ updOp ∨ updOpIc then
        let ex' := { ex with
          registration := if updReg then registration else ex.registration,
          typecode := if updTc then typecode else ex.typecode,
          operator := if updOp then op else ex.operator,
          operator_icao := if updOpIc then opIcao else ex.operator_icao,
          source := "api_enriched",
          updated_at := now }
        { st with aircraft := upsertBy (fun r => r.hex == hex) ex' st.aircraft }
      else st
    | none =>
      { st with aircraft := st.aircraft ++
          [{ hex := hex, registration := registration, typecode := typecode,
             model := "", operator := op, operator_icao := opIcao,
             operator_iata := "", owner := "",
             source := "api_enriched", updated_at := now }] }

/-- The AirLabs `/airports` branch of `Enricher._lookup_airport_name`
(`src/enrichment.py` lines 627-669): budget-guarded remote lookup whose
inner `try` catches every failure (falling through to `return iata`); a
successful first result is cached with `INSERT OR REPLACE` and its
(possibly empty) stripped name is returned. -/
def lookup_airport_api (env : Env) (st : EnricherState) (iata : String) :
    String × EnricherState :=
  if st.airlabsKey = "" then (iata, st)
  else if st.maxApiCalls ≤ st.apiCalls then (iata, st)
  else
    let st := { st with apiCalls := st.apiCalls + 1,
                        trace := st.trace ++ ["GET airports " ++ iata] }
    match env.airportApi iata with
    | .exn => (iata, st)
    | .ok code body =>
      if 400 ≤ code then (iata, st)
      else
        match body with
        | .error _ => (iata, st)
        | .ok [] => (iata, st)
        | .ok (apt :: _) =>
          if env.dbFails then (iata, st)
          else
            let nm := pyStrip apt.name
            let row : AirportRow :=
              { iata := iata, icao := pyStrip apt.icao_code, name := nm,
                city := pyStrip apt.city, country := pyStrip apt.country_code,
                lat := apt.lat, lon := apt.lon,
                source := "airlabs", updated_at := env.now }
            (nm, { st with airports := upsertBy (fun x => x.iata == iata) row st.airports })

/-- `Enricher._lookup_airport_name` (`src/enrichment.py` lines 614-669).
The initial `airports`-table read (line 620) is outside any `try`, so a
SQLite failure there raises out of this function (`.error`); every other
failure is absorbed. -/
def lookup_airport_name (env : Env) (st : EnricherState) (iata : String) :
    Except Unit (String × EnricherState) :=
  if iata = "" then .ok ("", st)
  else if env.dbFails then .error ()
  else
    match st.airports.find? (fun r => r.iata == iata) with
    | some row =>
      if row.name ≠ "" then .ok (row.name, st)
      else .ok (lookup_airport_api env st iata)
    | none => .ok (lookup_airport_api env st iata)

/-- `if dep_iata: route_data["dep_name"] = self._lookup_airport_name(dep_iata)`
(`src/enrichment.py` lines 502-505); an empty code leaves the name `""`. -/
def airport_name_step (env : Env) (st : EnricherState) (iata : String) :
    Except Unit (String × EnricherState) :=
  if iata = "" then .ok ("", st) else lookup_airport_name env st iata

/-- `Enricher._lookup_route_airlabs` (`src/enrichment.py` lines 438-538).
The whole body is wrapped in `try ... except Exception`, whose handler
adds the callsign to the in-memory miss-set; hence this function is total.
The session counter is incremented (and the request traced) before the
response is examined.  401 disables the key; 429 zeroes the session
budget; other HTTP errors, network failures and parse failures degrade to
a miss.  An empty or code-less response is persisted as a negative cache
entry.  A usable response is persisted (after resolving airport names),
applied to the still-empty fields of the flight, and any aircraft data it
carries is merged via `_cache_aircraft`.  A SQLite failure (`dbFails`)
surfaces at the first table access and is caught by the handler. -/
def lookup_route_airlabs (env : Env) (st0 : EnricherState) (f : Flight)
    (callsign : String) : Flight × EnricherState :=
  let st := { st0 with apiCalls := st0.apiCalls + 1,
                       trace := st0.trace ++ ["GET flights " ++ callsign] }
  match env.routeApi callsign with
  | .exn => (f, addMiss st callsign)
  | .ok code body =>
    if code = 401 then (f, { st with airlabsKey := "" })
    else if code = 429 then (f, { st with maxApiCalls := 0 })
    else if 400 ≤ code then (f, addMiss st callsign)
    else
      match body with
      | .error _ => (f, addMiss st callsign)
      | .ok [] =>
        if env.dbFails then (f, addMiss st callsign)
        else (f, cache_route (addMiss st callsign) (emptyRouteRow callsign env.now))
      | .ok (item :: _) =>
        let dep_iata := pyStrip item.dep_iata
        let arr_iata := pyStrip item.arr_iata
        if dep_iata = "" ∧ arr_iata = "" then
          if env.dbFails then (f, addMiss st callsign)
          else (f, cache_route (addMiss st callsign) (emptyRouteRow callsign env.now))
        else
          match airport_name_step env st dep_iata with
          | .error _ => (f, addMiss st callsign)
          | .ok (dep_name, st) =>
            match airport_name_step env st arr_iata with
            | .error _ => (f, addMiss st callsign)
            | .ok (arr_name, st) =>
              if env.dbFails then (f, addMiss st callsign)
              else
                let rd : RouteRow :=
                  { callsign := callsign, dep_iata := dep_iata,
                    dep_icao := pyStrip item.dep_icao, dep_name := dep_name,
                    arr_iata := arr_iata, arr_icao := pyStrip item.arr_icao,
                    arr_name := arr_name, airline_name := pyStrip item.airline_name,
                    aircraft_icao := pyStrip item.aircraft_icao,
                    flight_iata := pyStrip item.flight_iata,
                    source := "airlabs", updated_at := env.now }
                let st := cache_route st rd
                let f := apply_airlabs f dep_iata dep_name arr_iata arr_name
                           rd.airline_name rd.aircraft_icao
                let hex := pyStrip (asciiLower item.hex)
                let st :=
                  if hex ≠ "" then
                    cache_aircraft st hex (pyStrip item.reg_number) rd.aircraft_icao
                      rd.airline_name (pyStrip item.airline_icao) env.now
                  else st
                (f, st)

/-- `Enricher._enrich_route` (`src/enrichment.py` lines 391-413): consult
the persisted route cache (rows younger than 24h); on a hit apply it, on a
miss fall through to the AirLabs lookup guarded by key, in-memory
miss-set, and session budget.  The cache read (lines 396-399) is outside
any `try`, so a SQLite failure raises. -/
def enrich_route (env : Env) (st : EnricherState) (f : Flight)
    (callsign : String) : Except Unit (Flight × EnricherState) :=
  if env.dbFails then .error ()
  else
    match st.routes.find?
        (fun r => r.callsign == callsign && decide (env.now - 24 * 3600 < r.updated_at)) with
    | some row => .ok (apply_route f row, st)
    | none =>
      if st.airlabsKey = "" then .ok (f, st)
      else if callsign ∈ st.routeMissCache then .ok (f, st)
      else if st.maxApiCalls ≤ st.apiCalls then .ok (f, st)
      else .ok (lookup_route_airlabs env st f callsign)

/-- `Enricher.enrich` (`src/enrichment.py` lines 337-373): without a DB
connection only the callsign step runs; otherwise hex lookup, then the
callsign step, then the route step (only when a callsign is present and
origin or destination is still missing).  DB exceptions from steps 1 and
3a are not caught and propagate to the caller as `.error`. -/
def enrich (env : Env) (st : EnricherState) (f : Flight) :
    Except Unit (Flight × EnricherState) :=
  if st.hasConn = false then .ok (enrich_from_callsign f, st)
  else
    let hex := pyStrip (asciiLower f.hex_code)
    let callsign := asciiUpper (pyStrip f.callsign)
    match enrich_hex_lookup env st f hex with
    | .error e => .error e
    | .ok f1 =>
      let f2 := enrich_from_callsign f1
      if callsign ≠ "" ∧ (f2.origin_iata = "" ∨ f2.destination_iata = "") then
        enrich_route env st f2 callsign
      else .ok (f2, st)

/-- Single or double quote, the character set of `.strip("'\x22")`. -/
def isCsvQuote (c : Char) : Bool := c = Char.ofNat 39 ∨ c = Char.ofNat 34

/-- Remove leading and trailing quote characters. -/
def stripQuotes (s : String) : String :=
  String.mk (((s.toList.dropWhile isCsvQuote).reverse.dropWhile isCsvQuote).reverse)

/-- `cell.strip().strip("'\x22")` as applied to every header and data cell
in `Enricher.seed_from_file` (`src/enrichment.py` lines 287, 293). -/
def stripBoth (s : String) : String := stripQuotes (pyStrip s)

/-- `col_map = {name: idx for idx, name in enumerate(header)}` followed by
`col_map.get(name)`: the index of the last occurrence of `name` (a later
duplicate key overwrites an earlier one in a dict comprehension). -/
def colIdx (header : List String) (name : String) : Option Nat :=
  ((header.enum.filter (fun p => p.2 == name)).map (fun p => p.1)).getLast?

/-- `get_col(row, name, default="")` (`src/enrichment.py` lines 290-295):
an absent column, an out-of-range index, or an empty stripped cell all
yield the default `""`. -/
def get_col (header : List String) (row : List String) (name : String) : String :=
  match colIdx header name with
  | some idx =>
    if h : idx < row.length then
      let v := stripBoth (row.get ⟨idx, h⟩)
      if v ≠ "" then v else ""
    else ""
  | none => ""

/-- The tuple appended to `batch` in `Enricher.seed_from_file`
(lines 305-316): one full `aircraft` row built from the CSV record,
source `"csv_import"`. -/
def seed_row (get : String → String) (hex : String) (now : ℚ) : AircraftRow :=
  { hex := hex, registration := get "registration", typecode := get "typecode",
    model := get "model", operator := get "operator",
    operator_icao := get "operatorIcao", operator_iata := get "operatorIata",
    owner := get "owner", source := "csv_import", updated_at := now }

/-- `Enricher.seed_from_file` (`src/enrichment.py` lines 280-333): for
every CSV record with a non-empty lower-cased `icao24`, execute
`INSERT OR REPLACE INTO aircraft VALUES (...)` — a whole-row replacement
keyed by hex.  Batching (`executemany` every 5000 rows) does not change
the resulting table and is not modelled. -/
def seed_from_file (db : List AircraftRow) (rawHeader : List String)
    (rows : List (List String)) (now : ℚ) : List AircraftRow :=
  let header := rawHeader.map stripBoth
  rows.foldl (fun db row =>
    let hex := asciiLower (get_col header row "icao24")
    if hex = "" then db
    else upsertBy (fun r => r.hex == hex) (seed_row (get_col header row) hex now) db) db

/-- Divisor of `_nm_to_degrees_lon` (`src/data_sources.py` line 66):
`60.0 * math.cos(math.radians(lat))`, in exact real arithmetic. -/
noncomputable def lonDivisor (lat : ℝ) : ℝ := 60 * Real.cos (lat * Real.pi / 180)

/-- `_nm_to_degrees_lon` (`src/data_sources.py` lines 65-66):
`nm / (60.0 * math.cos(math.radians(lat)))`, with no clamp or guard on
the divisor. -/
noncomputable def nm_to_degrees_lon (nm lat : ℝ) : ℝ := nm / lonDivisor lat

/-- `_nm_to_degrees_lat` (`src/data_sources.py` lines 62-63). -/
noncomputable def nm_to_degrees_lat (nm : ℝ) : ℝ := nm / 60

/-- Helper: membership through one insertion step. -/
lemma mem_insertByDistance (a f : Flight) (l : List Flight) :
    a ∈ insertByDistance f l ↔ a = f ∨ a ∈ l := by
  induction l with
  | nil => simp [insertByDistance]
  | cons g gs ih =>
    simp only [insertByDistance]
    split
    · simp [List.mem_cons]
    · simp only [List.mem_cons, ih]
      tauto

/-- Helper: inserting into a list sorted by `distance_nm` keeps it sorted. -/
lemma pairwise_insertByDistance (f : Flight) (l : List Flight)
    (h : l.Pairwise (fun a b => a.distance_nm ≤ b.distance_nm)) :
    (insertByDistance f l).Pairwise (fun a b => a.distance_nm ≤ b.distance_nm) := by
  induction l with
  | nil => simp [insertByDistance]
  | cons g gs ih =>
    rcases List.pairwise_cons.mp h with ⟨hg, hgs⟩
    simp only [insertByDistance]
    split
    · rename_i hle
      refine List.pairwise_cons.mpr ⟨?_, h⟩
      intro b hb
      rcases List.mem_cons.mp hb with rfl | hb
      · exact hle
      · exact le_trans hle (hg b hb)
    · rename_i hnle
      refine List.pairwise_cons.mpr ⟨?_, ih hgs⟩
      intro b hb
      rcases (mem_insertByDistance b f gs).mp hb with rfl | hb
      · exact le_of_not_le hnle
      · exact hg b hb

/-- Helper: `sortByDistance` sorts ascending by `distance_nm`. -/
lemma pairwise_sortByDistance (l : List Flight) :
    (sortByDistance l).Pairwise (fun a b => a.distance_nm ≤ b.distance_nm) := by
  induction l with
  | nil => simp [sortByDistance]
  | cons f fs ih => exact pairwise_insertByDistance f _ ih

/-- Helper: `sortByDistance` neither adds nor drops records. -/
lemma mem_sortByDistance (a : Flight) (l : List Flight) :
    a ∈ sortByDistance l ↔ a ∈ l := by
  induction l with
  | nil => simp [sortByDistance]
  | cons f fs ih => simp [sortByDistance, mem_insertByDistance, ih]

/-- Helper: every record the filter loop keeps is within the radius, has
non-zero coordinates, is not on the ground, and is not below the
altitude-100/speed-50 heuristic. -/
lemma filterMapFlights_mem (lat lon radius : ℚ)
    (dist : ℚ → ℚ → ℚ → ℚ → Except Unit ℚ) (rnd : ℚ → ℚ) :
    ∀ (l fs : List Flight), filterMapFlights lat lon radius dist rnd l = .ok fs →
      ∀ f ∈ fs, f.distance_nm ≤ radius ∧ f.latitude ≠ 0 ∧ f.longitude ≠ 0 ∧
        f.on_ground = false ∧ ¬(f.altitude < 100 ∧ f.ground_speed < 50) := by
  intro l
  induction l with
  | nil =>
    intro fs h
    simp only [filterMapFlights] at h
    cases h
    simp
  | cons g gs ih =>
    intro fs h
    simp only [filterMapFlights] at h
    split at h
    · exact ih fs h
    · split at h
      · rename_i hground hcoord
        split at h
        · cases h
        · rename_i d hd
          split at h
          · cases h
          · rename_i rest hrest
            cases h
            intro f hf
            split at hf
            · rename_i hrad
              rcases List.mem_cons.mp hf with rfl | hmem
              · refine ⟨hrad, hcoord.1, hcoord.2, ?_, ?_⟩
                · simpa using fun hg => hground (Or.inl hg)
                · exact fun hlow => hground (Or.inr hlow)
              · exact ih rest hrest f hmem
            · exact ih rest hrest f hf
      · exact ih fs h

/-- Helper: a raw record that passes every filter condition appears (with
its distance annotated) in the kept list, provided the loop as a whole
succeeded. -/
lemma filterMapFlights_complete (lat lon radius : ℚ)
    (dist : ℚ → ℚ → ℚ → ℚ → Except Unit ℚ) (rnd : ℚ → ℚ) :
    ∀ (l fs : List Flight), filterMapFlights lat lon radius dist rnd l = .ok fs →
      ∀ f ∈ l, f.on_ground = false → ¬(f.altitude < 100 ∧ f.ground_speed < 50) →
        f.latitude ≠ 0 → f.longitude ≠ 0 →
        ∀ d, dist lat lon f.latitude f.longitude = .ok d → rnd d ≤ radius →
          { f with distance_nm := rnd d } ∈ fs := by
  intro l
  induction l with
  | nil => intro fs _ f hf; cases hf
  | cons g gs ih =>
    intro fs h f hf hog hlow hlat hlon d hd hrad
    simp only [filterMapFlights] at h
    rcases List.mem_cons.mp hf with rfl | hmem
    · rw [if_neg (by simp [hog, hlow]), if_pos ⟨hlat, hlon⟩] at h
      simp only [hd] at h
      split at h
      · cases h
      · rename_i rest hrest
        cases h
        rw [if_pos hrad]
        exact List.mem_cons_self _ _
    · split at h
      · exact ih fs h f hmem hog hlow hlat hlon d hd hrad
      · split at h
        · split at h
          · cases h
          · rename_i d2 hd2
            split at h
            · cases h
            · rename_i rest hrest
              cases h
              have : { f with distance_nm := rnd d } ∈ rest :=
                ih rest hrest f hmem hog hlow hlat hlon d hd hrad
              split
              · exact List.mem_cons_of_mem _ this
              · exact this
        · exact ih fs h f hmem hog hlow hlat hlon d hd hrad

/-- Helper: after any call, the provider's cache equals the returned list. -/
lemma fetch_output_eq_cache (st : ProviderState) (now : ℚ)
    (raw : Except Unit (List Flight))
    (dist : ℚ → ℚ → ℚ → ℚ → Except Unit ℚ) (rnd : ℚ → ℚ) :
    ((fetch_flights st now raw dist rnd).2.1).cache =
      (fetch_flights st now raw dist rnd).1 := by
  unfold fetch_flights
  split
  · rfl
  · split <;> rfl

/-- Helper: with an empty cache the wrapper takes the fetch path; its
output is either empty (failure path over an empty cache) or the sorted
kept list of a successful filter run. -/
lemma fetch_fresh_output (st : ProviderState) (now : ℚ)
    (raw : Except Unit (List Flight))
    (dist : ℚ → ℚ → ℚ → ℚ → Except Unit ℚ) (rnd : ℚ → ℚ)
    (hc : st.cache = []) :
    (fetch_flights st now raw dist rnd).1 = [] ∨
    ∃ l kept, raw = .ok l ∧
      filterMapFlights st.lat st.lon st.radius_nm dist rnd l = .ok kept ∧
      (fetch_flights st now raw dist rnd).1 = sortByDistance kept := by
  unfold fetch_flights
  rw [if_neg (by simp [hc])]
  unfold processRaw
  cases raw with
  | error e =>
    left
    simp [hc]
  | ok l =>
    cases hfm : filterMapFlights st.lat st.lon st.radius_nm dist rnd l with
    | error e =>
      left
      simp [hfm, hc]
    | ok kept =>
      right
      exact ⟨l, kept, rfl, hfm, by simp [hfm]⟩

/-- Helper: with an empty cache, a successful raw fetch and filter run,
the wrapper returns exactly the sorted kept list. -/
lemma fetch_fresh_output_ok (st : ProviderState) (now : ℚ) (l : List Flight)
    (dist : ℚ → ℚ → ℚ → ℚ → Except Unit ℚ) (rnd : ℚ → ℚ) (kept : List Flight)
    (hc : st.cache = [])
    (hfm : filterMapFlights st.lat st.lon st.radius_nm dist rnd l = .ok kept) :
    (fetch_flights st now (.ok l) dist rnd).1 = sortByDistance kept := by
  unfold fetch_flights
  rw [if_neg (by simp [hc])]
  unfold processRaw
  simp only [hfm]

/-- Claim C4: for every provider state, if any step of the fetch pipeline
(raw fetch, filtering, distance computation — sorting is total) fails,
`fetch_flights` returns the previous cached list with the cache and
last-fetch timestamp unchanged; the total return type shows no raw error
propagates.  Proved for the base wrapper and for the FR24 override. -/
theorem fetch_error_returns_previous_cache :
    ∀ (st : ProviderState) (now : ℚ) (raw : Except Unit (List Flight))
      (dist : ℚ → ℚ → ℚ → ℚ → Except Unit ℚ) (rnd : ℚ → ℚ)
      (sandbox : Bool) (e e2 : Unit),
      (processRaw st raw dist rnd = .error e →
        (fetch_flights st now raw dist rnd).1 = st.cache ∧
        (fetch_flights st now raw dist rnd).2.1 = st) ∧
      (fr24ProcessRaw st sandbox raw dist rnd = .error e2 →
        (fr24_fetch_flights st sandbox now raw dist rnd).1 = st.cache ∧
        (fr24_fetch_flights st sandbox now raw dist rnd).2.1 = st) := by
  intro st now raw dist rnd sandbox e e2
  constructor
  · intro h
    unfold fetch_flights
    split
    · exact ⟨rfl, rfl⟩
    · simp [h]
  · intro h
    unfold fr24_fetch_flights
    split
    · exact ⟨rfl, rfl⟩
    · simp [h]

/-- Witness for C4: a concrete failing raw fetch over a non-empty cache
returns exactly the previous cache and leaves the state unchanged. -/
theorem fetch_error_returns_previous_cache_witness :
    (fetch_flights
        { lat := mkRat 515074 100000, lon := mkRat (-1278) 10000, radius_nm := 10,
          cache := [{ callsign := "BA117", distance_nm := 1 }],
          last_fetch_time := 0, cache_ttl := 5 }
        100 (.error ()) (fun _ _ _ _ => .ok 1) id).1 =
      [{ callsign := "BA117", distance_nm := 1 }] ∧
    (fetch_flights
        { lat := mkRat 515074 100000, lon := mkRat (-1278) 10000, radius_nm := 10,
          cache := [{ callsign := "BA117", distance_nm := 1 }],
          last_fetch_time := 0, cache_ttl := 5 }
        100 (.error ()) (fun _ _ _ _ => .ok 1) id).2.1 =
      { lat := mkRat 515074 100000, lon := mkRat (-1278) 10000, radius_nm := 10,
        cache := [{ callsign := "BA117", distance_nm := 1 }],
        last_fetch_time := 0, cache_ttl := 5 } :=
  (fetch_error_returns_previous_cache _ 100 (.error ()) (fun _ _ _ _ => .ok 1) id
    false () ()).1 rfl

/-- Claim C5: for every raw record list, the list returned by the
(non-sandbox) wrapper from a fresh fetch contains only records whose
computed `distance_nm` is at most the configured radius, and it is sorted
ascending by `distance_nm`. -/
theorem fetch_within_radius_sorted :
    ∀ (st : ProviderState) (now : ℚ) (raw : Except Unit (List Flight))
      (dist : ℚ → ℚ → ℚ → ℚ → Except Unit ℚ) (rnd : ℚ → ℚ),
      st.cache = [] →
      (∀ f ∈ (fetch_flights st now raw dist rnd).1,
        f.distance_nm ≤ st.radius_nm) ∧
      (fetch_flights st now raw dist rnd).1.Pairwise
        (fun a b => a.distance_nm ≤ b.distance_nm) := by
  intro st now raw dist rnd hc
  rcases fetch_fresh_output st now raw dist rnd hc with h0 | ⟨l, kept, _, hfm, hout⟩
  · rw [h0]
    simp
  · rw [hout]
    constructor
    · intro f hf
      exact (filterMapFlights_mem st.lat st.lon st.radius_nm dist rnd l kept hfm f
        ((mem_sortByDistance f kept).mp hf)).1
    · exact pairwise_sortByDistance kept

/-- Witness for C5: observer (51.5074, -0.1278), radius 10 nm, two
airborne raw records whose distances compute to 1.2 nm and 15 nm; the
output satisfies the radius/sortedness property and equals exactly the
1.2 nm record. -/
theorem fetch_within_radius_sorted_witness :
    (∀ f ∈ (fetch_flights
        { lat := mkRat 515074 10000, lon := mkRat (-1278) 10000, radius_nm := 10 }
        100
        (.ok [{ callsign := "BA117", latitude := mkRat 5152 100, longitude := mkRat (-15) 100,
                altitude := 38000, ground_speed := 487 },
              { callsign := "RYR4421", latitude := 52, longitude := mkRat (-8) 100,
                altitude := 24500, ground_speed := 412 }])
        (fun _ _ la _ => if la = mkRat 5152 100 then .ok (mkRat 12 10) else .ok 15)
        id).1,
      f.distance_nm ≤
        ({ lat := mkRat 515074 10000, lon := mkRat (-1278) 10000, radius_nm := 10 } :
          ProviderState).radius_nm) ∧
    (fetch_flights
        { lat := mkRat 515074 10000, lon := mkRat (-1278) 10000, radius_nm := 10 }
        100
        (.ok [{ callsign := "BA117", latitude := mkRat 5152 100, longitude := mkRat (-15) 100,
                altitude := 38000, ground_speed := 487 },
              { callsign := "RYR4421", latitude := 52, longitude := mkRat (-8) 100,
                altitude := 24500, ground_speed := 412 }])
        (fun _ _ la _ => if la = mkRat 5152 100 then .ok (mkRat 12 10) else .ok 15)
        id).1 =
      [{ callsign := "BA117", latitude := mkRat 5152 100, longitude := mkRat (-15) 100,
         altitude := 38000, ground_speed := 487, distance_nm := mkRat 12 10 }] :=
  ⟨(fetch_within_radius_sorted _ 100 _ _ id rfl).1, by
    unfold fetch_flights
    rw [if_neg (by norm_num)]
    decide⟩

/-- Claim C6: the wrapper excludes every record with `on_ground` true and
every record with altitude < 100 and ground speed < 50 (first conjunct);
and every raw record that is airborne, fails the low/slow heuristic, has
non-zero coordinates and a computed distance within the radius appears in
the output (second conjunct), provided the filter loop succeeded. -/
theorem fetch_ground_and_lowslow_filter :
    (∀ (st : ProviderState) (now : ℚ) (raw : Except Unit (List Flight))
       (dist : ℚ → ℚ → ℚ → ℚ → Except Unit ℚ) (rnd : ℚ → ℚ),
       st.cache = [] →
       ∀ f ∈ (fetch_flights st now raw dist rnd).1,
         f.on_ground = false ∧ ¬(f.altitude < 100 ∧ f.ground_speed < 50)) ∧
    (∀ (st : ProviderState) (now : ℚ) (l : List Flight)
       (dist : ℚ → ℚ → ℚ → ℚ → Except Unit ℚ) (rnd : ℚ → ℚ)
       (kept : List Flight) (f : Flight) (d : ℚ),
       st.cache = [] →
       filterMapFlights st.lat st.lon st.radius_nm dist rnd l = .ok kept →
       f ∈ l → f.on_ground = false → ¬(f.altitude < 100 ∧ f.ground_speed < 50) →
       f.latitude ≠ 0 → f.longitude ≠ 0 →
       dist st.lat st.lon f.latitude f.longitude = .ok d →
       rnd d ≤ st.radius_nm →
       { f with distance_nm := rnd d } ∈ (fetch_flights st now (.ok l) dist rnd).1) := by
  constructor
  · intro st now raw dist rnd hc f hf
    rcases fetch_fresh_output st now raw dist rnd hc with h0 | ⟨l, kept, _, hfm, hout⟩
    · rw [h0] at hf
      cases hf
    · rw [hout] at hf
      have := filterMapFlights_mem st.lat st.lon st.radius_nm dist rnd l kept hfm f
        ((mem_sortByDistance f kept).mp hf)
      exact ⟨this.2.2.2.1, this.2.2.2.2⟩
  · intro st now l dist rnd kept f d hc hfm hmem hog hlow hlat hlon hd hrad
    rw [fetch_fresh_output_ok st now l dist rnd kept hc hfm]
    exact (mem_sortByDistance _ kept).mpr
      (filterMapFlights_complete st.lat st.lon st.radius_nm dist rnd l kept hfm f
        hmem hog hlow hlat hlon d hd hrad)

/-- Witness for C6: of two airborne records at altitude 50 ft with speeds
20 kn and 80 kn, the 20 kn one is excluded and the 80 kn one included. -/
theorem fetch_ground_and_lowslow_filter_witness :
    ({ callsign := "OK80", latitude := 1, longitude := 1, altitude := 50,
       ground_speed := 80, distance_nm := 2 : Flight } ∈
      (fetch_flights { lat := mkRat 515074 10000, lon := mkRat (-1278) 10000, radius_nm := 10 }
        100
        (.ok [{ callsign := "LOW20", latitude := 1, longitude := 1,
                altitude := 50, ground_speed := 20 },
              { callsign := "OK80", latitude := 1, longitude := 1,
                altitude := 50, ground_speed := 80 }])
        (fun _ _ _ _ => .ok 2) id).1) ∧
    (∀ f ∈ (fetch_flights { lat := mkRat 515074 10000, lon := mkRat (-1278) 10000, radius_nm := 10 }
        100
        (.ok [{ callsign := "LOW20", latitude := 1, longitude := 1,
                altitude := 50, ground_speed := 20 },
              { callsign := "OK80", latitude := 1, longitude := 1,
                altitude := 50, ground_speed := 80 }])
        (fun _ _ _ _ => .ok 2) id).1,
      f.on_ground = false ∧ ¬(f.altitude < 100 ∧ f.ground_speed < 50)) ∧
    (fetch_flights { lat := mkRat 515074 10000, lon := mkRat (-1278) 10000, radius_nm := 10 }
        100
        (.ok [{ callsign := "LOW20", latitude := 1, longitude := 1,
                altitude := 50, ground_speed := 20 },
              { callsign := "OK80", latitude := 1, longitude := 1,
                altitude := 50, ground_speed := 80 }])
        (fun _ _ _ _ => .ok 2) id).1 =
      [{ callsign := "OK80", latitude := 1, longitude := 1, altitude := 50,
         ground_speed := 80, distance_nm := 2 }] :=
  ⟨fetch_ground_and_lowslow_filter.2 _ 100 _ (fun _ _ _ _ => .ok 2) id
      [{ callsign := "OK80", latitude := 1, longitude := 1, altitude := 50,
         ground_speed := 80, distance_nm := 2 }]
      { callsign := "OK80", latitude := 1, longitude := 1, altitude := 50,
        ground_speed := 80 } 2
      rfl rfl (by decide) rfl (by decide) (by decide) (by decide) rfl
      (by decide),
   fetch_ground_and_lowslow_filter.1 _ 100 _ (fun _ _ _ _ => .ok 2) id rfl,
   by
    unfold fetch_flights
    rw [if_neg (by norm_num)]
    decide⟩

/-- Claim C10: a raw record whose latitude or longitude is exactly 0 never
appears in a freshly fetched output: the `if f.latitude and f.longitude`
truthiness check treats an exact-zero coordinate as absent data. -/
theorem fetch_drops_zero_coordinates :
    ∀ (st : ProviderState) (now : ℚ) (raw : Except Unit (List Flight))
      (dist : ℚ → ℚ → ℚ → ℚ → Except Unit ℚ) (rnd : ℚ → ℚ),
      st.cache = [] →
      ∀ f ∈ (fetch_flights st now raw dist rnd).1,
        f.latitude ≠ 0 ∧ f.longitude ≠ 0 := by
  intro st now raw dist rnd hc f hf
  rcases fetch_fresh_output st now raw dist rnd hc with h0 | ⟨l, kept, _, hfm, hout⟩
  · rw [h0] at hf
    cases hf
  · rw [hout] at hf
    have := filterMapFlights_mem st.lat st.lon st.radius_nm dist rnd l kept hfm f
      ((mem_sortByDistance f kept).mp hf)
    exact ⟨this.2.1, this.2.2.1⟩

/-- Witness for C10: an airborne, in-radius record lying exactly on the
equator (latitude 0) is silently dropped; the record with ordinary
coordinates is kept. -/
theorem fetch_drops_zero_coordinates_witness :
    (∀ f ∈ (fetch_flights { lat := mkRat 515074 10000, lon := mkRat (-1278) 10000, radius_nm := 10 }
        100
        (.ok [{ callsign := "EQTR", latitude := 0, longitude := 5,
                altitude := 30000, ground_speed := 400 },
              { callsign := "NORM", latitude := mkRat 5152 100, longitude := mkRat (-15) 100,
                altitude := 30000, ground_speed := 400 }])
        (fun _ _ _ _ => .ok 3) id).1,
      f.latitude ≠ 0 ∧ f.longitude ≠ 0) ∧
    (fetch_flights { lat := mkRat 515074 10000, lon := mkRat (-1278) 10000, radius_nm := 10 }
        100
        (.ok [{ callsign := "EQTR", latitude := 0, longitude := 5,
                altitude := 30000, ground_speed := 400 },
              { callsign := "NORM", latitude := mkRat 5152 100, longitude := mkRat (-15) 100,
                altitude := 30000, ground_speed := 400 }])
        (fun _ _ _ _ => .ok 3) id).1 =
      [{ callsign := "NORM", latitude := mkRat 5152 100, longitude := mkRat (-15) 100,
         altitude := 30000, ground_speed := 400, distance_nm := 3 }] :=
  ⟨fetch_drops_zero_coordinates _ 100 _ (fun _ _ _ _ => .ok 3) id rfl, by
    unfold fetch_flights
    rw [if_neg (by norm_num)]
    decide⟩

/-- Claim C8, part support: if the TTL window is open and the cache is
non-empty, the wrapper returns the cached list with the state unchanged
and performs no raw fetch; consequently a second call within the TTL
window of a first call that produced a non-empty list returns the
identical list without a second raw fetch. -/
theorem fetch_ttl_cache_hit :
    (∀ (st : ProviderState) (now : ℚ) (raw : Except Unit (List Flight))
       (dist : ℚ → ℚ → ℚ → ℚ → Except Unit ℚ) (rnd : ℚ → ℚ),
       now - st.last_fetch_time < st.cache_ttl → st.cache ≠ [] →
       fetch_flights st now raw dist rnd = (st.cache, st, false)) ∧
    (∀ (st : ProviderState) (now1 now2 : ℚ)
       (raw1 raw2 : Except Unit (List Flight))
       (dist1 dist2 : ℚ → ℚ → ℚ → ℚ → Except Unit ℚ) (rnd1 rnd2 : ℚ → ℚ),
       (fetch_flights st now1 raw1 dist1 rnd1).1 ≠ [] →
       now2 - (fetch_flights st now1 raw1 dist1 rnd1).2.1.last_fetch_time <
         (fetch_flights st now1 raw1 dist1 rnd1).2.1.cache_ttl →
       fetch_flights (fetch_flights st now1 raw1 dist1 rnd1).2.1 now2 raw2 dist2 rnd2 =
         ((fetch_flights st now1 raw1 dist1 rnd1).1,
          (fetch_flights st now1 raw1 dist1 rnd1).2.1, false)) := by
  have hhit : ∀ (st : ProviderState) (now : ℚ) (raw : Except Unit (List Flight))
      (dist : ℚ → ℚ → ℚ → ℚ → Except Unit ℚ) (rnd : ℚ → ℚ),
      now - st.last_fetch_time < st.cache_ttl → st.cache ≠ [] →
      fetch_flights st now raw dist rnd = (st.cache, st, false) := by
    intro st now raw dist rnd h1 h2
    unfold fetch_flights
    rw [if_pos ⟨h1, h2⟩]
  refine ⟨hhit, ?_⟩
  intro st now1 now2 raw1 raw2 dist1 dist2 rnd1 rnd2 hne hwin
  have hc := fetch_output_eq_cache st now1 raw1 dist1 rnd1
  have hcne : (fetch_flights st now1 raw1 dist1 rnd1).2.1.cache ≠ [] := by
    rw [hc]
    exact hne
  rw [hhit _ now2 raw2 dist2 rnd2 hwin hcne, hc]

/-- Witness for C8: with a cache of one flight fetched at t=98 (TTL 5), a
call at t=100 returns that cache unchanged without fetching; and after a
fresh fetch at t=100 produced a non-empty list, a second call at t=102
(whose raw argument is a hard error, showing no fetch occurs) returns the
identical list. -/
theorem fetch_ttl_cache_hit_witness :
    (fetch_flights
        { lat := 51, lon := 0, radius_nm := 10,
          cache := [{ callsign := "BA117", distance_nm := 1 }],
          last_fetch_time := 98, cache_ttl := 5 }
        100 (.ok []) (fun _ _ _ _ => .ok 1) id =
      ([{ callsign := "BA117", distance_nm := 1 }],
       { lat := 51, lon := 0, radius_nm := 10,
         cache := [{ callsign := "BA117", distance_nm := 1 }],
         last_fetch_time := 98, cache_ttl := 5 }, false)) ∧
    (fetch_flights
        (fetch_flights { lat := 51, lon := 0, radius_nm := 10 } 100
          (.ok [{ callsign := "NORM", latitude := 1, longitude := 1,
                  altitude := 30000, ground_speed := 400 }])
          (fun _ _ _ _ => .ok 3) id).2.1
        102 (.error ()) (fun _ _ _ _ => .ok 99) id =
      ((fetch_flights { lat := 51, lon := 0, radius_nm := 10 } 100
          (.ok [{ callsign := "NORM", latitude := 1, longitude := 1,
                  altitude := 30000, ground_speed := 400 }])
          (fun _ _ _ _ => .ok 3) id).1,
       (fetch_flights { lat := 51, lon := 0, radius_nm := 10 } 100
          (.ok [{ callsign := "NORM", latitude := 1, longitude := 1,
                  altitude := 30000, ground_speed := 400 }])
          (fun _ _ _ _ => .ok 3) id).2.1, false)) := by
  constructor
  · exact fetch_ttl_cache_hit.1 _ 100 (.ok []) (fun _ _ _ _ => .ok 1) id
      (by norm_num) (by decide)
  · refine fetch_ttl_cache_hit.2 _ 100 102 _ (.error ())
      (fun _ _ _ _ => .ok 3) (fun _ _ _ _ => .ok 99) id id ?_ ?_
    · conv_lhs =>
        unfold fetch_flights
        rw [if_neg (by norm_num)]
      decide
    · conv_lhs =>
        rw [show (fetch_flights { lat := 51, lon := 0, radius_nm := 10 } 100
          (.ok [{ callsign := "NORM", latitude := 1, longitude := 1,
                  altitude := 30000, ground_speed := 400 }])
          (fun _ _ _ _ => .ok 3) id).2.1.last_fetch_time = 100 from by
            unfold fetch_flights
            rw [if_neg (by norm_num)]
            decide]
      norm_num
      rw [show (fetch_flights { lat := 51, lon := 0, radius_nm := 10 } 100
          (.ok [{ callsign := "NORM", latitude := 1, longitude := 1,
                  altitude := 30000, ground_speed := 400 }])
          (fun _ _ _ _ => .ok 3) id).2.1.cache_ttl = 5 from by
            unfold fetch_flights
            rw [if_neg (by norm_num)]
            decide]
      norm_num

/-- Helper: at latitude 90 the divisor of the longitude-delta computation
is exactly zero in real arithmetic: `radians 90 = π/2` and `cos (π/2) = 0`. -/
lemma lonDivisor_ninety : lonDivisor (90 : ℝ) = 0 := by
  unfold lonDivisor
  have h : (90 : ℝ) * Real.pi / 180 = Real.pi / 2 := by ring
  rw [h, Real.cos_pi_div_two, mul_zero]

/-- Counterexample to claim C9: the claim asserts the bounding-box
longitude-delta computation never divides by zero for any input latitude
because cos(lat) near 0 is clamped or guarded; in fact no clamp or guard
exists, and at the pole (latitude 90) the divisor is exactly zero. -/
theorem lon_divisor_unguarded_counterexample :
    ¬ (∀ lat : ℝ, lonDivisor lat ≠ 0) := by
  intro h
  exact h 90 lonDivisor_ninety

/-- Claim C9 (amended): `_nm_to_degrees_lon` computes
`nm / (60·cos(radians lat))` with no clamp or guard; at latitude 90 the
divisor is exactly zero in real semantics, so the expression is literally
a division by zero there.  (In IEEE-double execution
`math.cos(math.radians(90))` is ≈ 6.1e-17, so Python raises no
`ZeroDivisionError`, but nothing clamps the divisor.) -/
theorem nm_to_degrees_lon_pole_divides_by_zero :
    ∀ nm : ℝ, lonDivisor (90 : ℝ) = 0 ∧ nm_to_degrees_lon nm 90 = nm / 0 := by
  intro nm
  refine ⟨lonDivisor_ninety, ?_⟩
  unfold nm_to_degrees_lon
  rw [lonDivisor_ninety]

/-- Frame predicate for one `enrich` call: every string field that was
non-empty before is unchanged after, and every numeric/boolean field is
unchanged unconditionally (the enrichment code never assigns them). -/
def fillsOnly (f g : Flight) : Prop :=
  (f.callsign ≠ "" → g.callsign = f.callsign) ∧
  (f.airline ≠ "" → g.airline = f.airline) ∧
  (f.aircraft_type ≠ "" → g.aircraft_type = f.aircraft_type) ∧
  (f.registration ≠ "" → g.registration = f.registration) ∧
  (f.origin_iata ≠ "" → g.origin_iata = f.origin_iata) ∧
  (f.origin_name ≠ "" → g.origin_name = f.origin_name) ∧
  (f.destination_iata ≠ "" → g.destination_iata = f.destination_iata) ∧
  (f.destination_name ≠ "" → g.destination_name = f.destination_name) ∧
  (f.squawk ≠ "" → g.squawk = f.squawk) ∧
  (f.flight_id ≠ "" → g.flight_id = f.flight_id) ∧
  (f.hex_code ≠ "" → g.hex_code = f.hex_code) ∧
  g.latitude = f.latitude ∧ g.longitude = f.longitude ∧
  g.altitude = f.altitude ∧ g.ground_speed = f.ground_speed ∧
  g.heading = f.heading ∧ g.vertical_speed = f.vertical_speed ∧
  g.distance_nm = f.distance_nm ∧ g.on_ground = f.on_ground

lemma fillsOnly_refl (f : Flight) : fillsOnly f f := by
  simp [fillsOnly]

lemma fillsOnly_trans {f g h : Flight}
    (h1 : fillsOnly f g) (h2 : fillsOnly g h) : fillsOnly f h := by
  have hs : ∀ {x y z : String}, (x ≠ "" → y = x) → (y ≠ "" → z = y) →
      (x ≠ "" → z = x) := by
    intro x y z hxy hyz hx
    have e1 := hxy hx
    have e2 := hyz (e1 ▸ hx)
    rw [e2, e1]
  obtain ⟨a1, b1, c1, d1, e1, f1, g1, i1, j1, k1, l1, m1, n1, o1, p1, q1, r1, s1, t1⟩ := h1
  obtain ⟨a2, b2, c2, d2, e2, f2, g2, i2, j2, k2, l2, m2, n2, o2, p2, q2, r2, s2, t2⟩ := h2
  exact ⟨hs a1 a2, hs b1 b2, hs c1 c2, hs d1 d2, hs e1 e2, hs f1 f2, hs g1 g2,
    hs i1 i2, hs j1 j2, hs k1 k2, hs l1 l2, m2.trans m1, n2.trans n1, o2.trans o1,
    p2.trans p1, q2.trans q1, r2.trans r1, s2.trans s1, t2.trans t1⟩

lemma fillsOnly_fillRegistration (f : Flight) (v : String) :
    fillsOnly f (fillRegistration f v) := by
  unfold fillRegistration
  split
  · rename_i h
    simp [fillsOnly, h.1]
  · exact fillsOnly_refl f

lemma fillsOnly_fillAircraftType (f : Flight) (v : String) :
    fillsOnly f (fillAircraftType f v) := by
  unfold fillAircraftType
  split
  · rename_i h
    simp [fillsOnly, h.1]
  · exact fillsOnly_refl f

lemma fillsOnly_fillAirline (f : Flight) (v : String) :
    fillsOnly f (fillAirline f v) := by
  unfold fillAirline
  split
  · rename_i h
    simp [fillsOnly, h.1]
  · exact fillsOnly_refl f

lemma fillsOnly_fillOriginIata (f : Flight) (v : String) :
    fillsOnly f (fillOriginIata f v) := by
  unfold fillOriginIata
  split
  · rename_i h
    simp [fillsOnly, h.1]
  · exact fillsOnly_refl f

lemma fillsOnly_fillOriginName (f : Flight) (v : String) :
    fillsOnly f (fillOriginName f v) := by
  unfold fillOriginName
  split
  · rename_i h
    simp [fillsOnly, h.1]
  · exact fillsOnly_refl f

lemma fillsOnly_fillDestinationIata (f : Flight) (v : String) :
    fillsOnly f (fillDestinationIata f v) := by
  unfold fillDestinationIata
  split
  · rename_i h
    simp [fillsOnly, h.1]
  · exact fillsOnly_refl f

lemma fillsOnly_fillDestinationName (f : Flight) (v : String) :
    fillsOnly f (fillDestinationName f v) := by
  unfold fillDestinationName
  split
  · rename_i h
    simp [fillsOnly, h.1]
  · exact fillsOnly_refl f

lemma fillsOnly_fillAirlineFromRow (f : Flight) (row : AircraftRow) :
    fillsOnly f (fillAirlineFromRow f row) := by
  unfold fillAirlineFromRow
  split
  · rename_i h
    simp [fillsOnly, h]
  · exact fillsOnly_refl f

lemma fillsOnly_apply_airlabs (f : Flight)
    (a b c d e g : String) : fillsOnly f (apply_airlabs f a b c d e g) := by
  unfold apply_airlabs
  have h1 := fillsOnly_fillOriginIata f a
  have h2 := fillsOnly_trans h1 (fillsOnly_fillOriginName _ b)
  have h3 := fillsOnly_trans h2 (fillsOnly_fillDestinationIata _ c)
  have h4 := fillsOnly_trans h3 (fillsOnly_fillDestinationName _ d)
  have h5 := fillsOnly_trans h4 (fillsOnly_fillAirline _ e)
  exact fillsOnly_trans h5 (fillsOnly_fillAircraftType _ g)

lemma fillsOnly_apply_route (f : Flight) (row : RouteRow) :
    fillsOnly f (apply_route f row) :=
  fillsOnly_apply_airlabs f _ _ _ _ _ _

lemma fillsOnly_enrich_hex_lookup (env : Env) (st : EnricherState)
    (f : Flight) (hex : String) (f1 : Flight)
    (h : enrich_hex_lookup env st f hex = .ok f1) : fillsOnly f f1 := by
  unfold enrich_hex_lookup at h
  split at h
  · cases h
    exact fillsOnly_refl f
  · split at h
    · cases h
    · split at h
      · cases h
        exact fillsOnly_refl f
      · cases h
        exact fillsOnly_trans
          (fillsOnly_trans (fillsOnly_fillRegistration f _)
            (fillsOnly_fillAircraftType _ _))
          (fillsOnly_fillAirlineFromRow _ _)

lemma fillsOnly_enrich_from_callsign (f : Flight) :
    fillsOnly f (enrich_from_callsign f) := by
  unfold enrich_from_callsign
  split
  · exact fillsOnly_refl f
  · rename_i hne
    have he : f.airline = "" := not_ne_iff.mp hne
    dsimp only
    split
    · split
      · split
        · simp [fillsOnly, he]
        · exact fillsOnly_refl f
      · exact fillsOnly_refl f
    · exact fillsOnly_refl f

set_option maxHeartbeats 1000000 in
lemma fillsOnly_lookup_route_airlabs (env : Env) (st : EnricherState)
    (f : Flight) (callsign : String) :
    fillsOnly f (lookup_route_airlabs env st f callsign).1 := by
  unfold lookup_route_airlabs
  dsimp only
  split
  · exact fillsOnly_refl f
  · split
    · exact fillsOnly_refl f
    · split
      · exact fillsOnly_refl f
      · split
        · exact fillsOnly_refl f
        · split
          · exact fillsOnly_refl f
          · split <;> exact fillsOnly_refl f
          · split
            · split <;> exact fillsOnly_refl f
            · split
              · exact fillsOnly_refl f
              · split
                · exact fillsOnly_refl f
                · split
                  · exact fillsOnly_refl f
                  · dsimp only
                    exact fillsOnly_apply_airlabs f _ _ _ _ _ _

set_option maxHeartbeats 1000000 in
lemma fillsOnly_enrich_route (env : Env) (st : EnricherState)
    (f : Flight) (callsign : String) (out : Flight × EnricherState)
    (h : enrich_route env st f callsign = .ok out) : fillsOnly f out.1 := by
  unfold enrich_route at h
  split at h
  · cases h
  · split at h
    · cases h
      exact fillsOnly_apply_route f _
    · split at h
      · cases h
        exact fillsOnly_refl f
      · split at h
        · cases h
          exact fillsOnly_refl f
        · split at h
          · cases h
            exact fillsOnly_refl f
          · cases h
            exact fillsOnly_lookup_route_airlabs env st f callsign

set_option maxHeartbeats 1000000 in
/-- Claim C1: for every environment (hence every database state and every
remote-API behaviour), a successful `enrich(flight)` call only fills
fields of the record that were empty before the call: every string field
that was non-empty is returned unchanged, and no numeric/boolean field is
ever touched. -/
theorem enrich_only_fills_empty_fields :
    ∀ (env : Env) (st : EnricherState) (f : Flight)
      (out : Flight × EnricherState),
      enrich env st f = .ok out → fillsOnly f out.1 := by
  intro env st f out h
  unfold enrich at h
  split at h
  · cases h
    exact fillsOnly_enrich_from_callsign f
  · dsimp only at h
    split at h
    · cases h
    · rename_i f1 hf1
      have h1 : fillsOnly f f1 := fillsOnly_enrich_hex_lookup env st f _ f1 hf1
      have h2 : fillsOnly f (enrich_from_callsign f1) :=
        fillsOnly_trans h1 (fillsOnly_enrich_from_callsign f1)
      split at h
      · exact fillsOnly_trans h2
          (fillsOnly_enrich_route env st (enrich_from_callsign f1) _ out h)
      · cases h
        exact h2

def c1Env : Env where
  now := 1000000
  dbFails := false
  routeApi := fun _ => .exn
  airportApi := fun _ => .exn

def c1St : EnricherState :=
  { aircraft := [{ hex := "4ca123", registration := "EI-DCP",
                   operator := "DIFFERENT" }] }

def c1Flight : Flight :=
  { callsign := "RYR4421", airline := "RYANAIR", hex_code := "4CA123" }

/-- Witness for C1: a record with `airline="RYANAIR"` whose hex has a
metadata row with `operator="DIFFERENT"` keeps `airline="RYANAIR"` after
enrichment (the empty registration is filled, nothing else changes). -/
theorem enrich_only_fills_empty_fields_witness :
    enrich c1Env c1St c1Flight =
      .ok ({ c1Flight with registration := "EI-DCP" }, c1St) ∧
    ({ c1Flight with registration := "EI-DCP" } : Flight).airline = "RYANAIR" := by
  have he : enrich c1Env c1St c1Flight =
      .ok ({ c1Flight with registration := "EI-DCP" }, c1St) := by rfl
  refine ⟨he, ?_⟩
  have hfo := enrich_only_fills_empty_fields c1Env c1St c1Flight _ he
  exact (hfo.2.1 (by decide)).trans rfl

/-- Helper: with working SQLite, the hex-lookup step never raises. -/
lemma enrich_hex_lookup_no_throw (env : Env) (st : EnricherState)
    (f : Flight) (hex : String) (hdb : env.dbFails = false) (e : Unit) :
    enrich_hex_lookup env st f hex ≠ .error e := by
  unfold enrich_hex_lookup
  split
  · simp
  · rw [if_neg (by simp [hdb])]
    split <;> simp

/-- Helper: with working SQLite, the route step never raises (every
remote/API failure inside `_lookup_route_airlabs` is caught there). -/
lemma enrich_route_no_throw (env : Env) (st : EnricherState)
    (f : Flight) (callsign : String) (hdb : env.dbFails = false) (e : Unit) :
    enrich_route env st f callsign ≠ .error e := by
  unfold enrich_route
  rw [if_neg (by simp [hdb])]
  split
  · simp
  · split
    · simp
    · split
      · simp
      · split <;> simp

def c3Env : Env where
  now := 0
  dbFails := true
  routeApi := fun _ => .exn
  airportApi := fun _ => .exn

/-- Counterexample to claim C3: `enrich` is claimed never to raise for any
internal failure including database errors; in fact the hex lookup
(`src/enrichment.py` lines 356-358) runs outside any `try`, so a SQLite
error there escapes to the caller. -/
theorem enrich_db_error_escapes_counterexample :
    enrich c3Env { aircraft := [] } { hex_code := "4ca123" } = .error () := by
  rfl

/-- Claim C3 (amended): `enrich(flight)` never raises for network errors,
malformed responses or HTTP error statuses from the remote API — all of
those are caught inside `_lookup_route_airlabs` and degrade to leaving the
affected fields empty; however a database error in the uncaught hex lookup
or route-cache query does propagate. -/
theorem enrich_no_throw_without_db_failure :
    ∀ (env : Env) (st : EnricherState) (f : Flight),
      env.dbFails = false → ∀ e : Unit, enrich env st f ≠ .error e := by
  intro env st f hdb e
  unfold enrich
  split
  · simp
  · dsimp only
    cases hh : enrich_hex_lookup env st f (pyStrip (asciiLower f.hex_code)) with
    | error e2 => exact absurd hh (enrich_hex_lookup_no_throw env st f _ hdb e2)
    | ok f1 =>
      simp only [hh]
      split
      · exact enrich_route_no_throw env st _ _ hdb e
      · simp

def c3WitnessEnv : Env where
  now := 0
  dbFails := false
  routeApi := fun _ => .ok 500 (.error ())
  airportApi := fun _ => .exn

/-- Witness for the amended C3: with working SQLite but a remote API that
returns HTTP 500 with an unparseable body, an `enrich` call that does
reach the remote lookup still does not raise. -/
theorem enrich_no_throw_without_db_failure_witness :
    enrich c3WitnessEnv { airlabsKey := "k" } { callsign := "RYR4421" } ≠
      .error () :=
  enrich_no_throw_without_db_failure c3WitnessEnv { airlabsKey := "k" }
    { callsign := "RYR4421" } rfl ()

/-- Helper: with the session budget exhausted, the route step leaves the
enricher state untouched (its only state changes live inside the
budget-guarded `_lookup_route_airlabs`). -/
lemma enrich_route_exhausted_state (env : Env) (st : EnricherState)
    (f : Flight) (callsign : String) (f' : Flight) (st' : EnricherState)
    (hexh : st.maxApiCalls ≤ st.apiCalls)
    (h : enrich_route env st f callsign = .ok (f', st')) : st' = st := by
  unfold enrich_route at h
  rw [if_pos hexh] at h
  simp only [ite_self] at h
  split at h
  · cases h
  · split at h
    · cases h
      rfl
    · cases h
      rfl

/-- Helper: with the session budget exhausted, the route step's result is
independent of the remote-API oracles (only `dbFails` and `now` matter). -/
lemma enrich_route_env_irrelevant_when_exhausted (env env2 : Env)
    (st : EnricherState) (f : Flight) (callsign : String)
    (hdbf : env2.dbFails = env.dbFails) (hnow : env2.now = env.now)
    (hexh : st.maxApiCalls ≤ st.apiCalls) :
    enrich_route env st f callsign = enrich_route env2 st f callsign := by
  unfold enrich_route
  rw [hdbf, hnow]
  by_cases hdb : env.dbFails = true
  · simp [hdb]
  · simp only [if_neg hdb]
    cases hfind : st.routes.find?
        (fun r => r.callsign == callsign &&
          decide (env.now - 24 * 3600 < r.updated_at)) with
    | some row => simp only [hfind]
    | none =>
      simp only [hfind]
      by_cases hkey : st.airlabsKey = ""
      · simp [hkey]
      · simp only [if_neg hkey]
        by_cases hmiss : callsign ∈ st.routeMissCache
        · simp [hmiss]
        · simp only [if_neg hmiss, if_pos hexh]

/-- Claim C7: once the session budget is exhausted (counter at or above
the maximum — which HTTP 429 forces to zero), `enrich` performs no remote
lookup: its result does not depend on the remote-API oracles at all, and
the enricher state (trace, counters, caches) is returned unchanged, while
local DB/cache lookups still serve data. -/
theorem budget_exhausted_no_remote_calls :
    ∀ (env env2 : Env) (st : EnricherState) (f : Flight),
      env2.dbFails = env.dbFails → env2.now = env.now →
      st.maxApiCalls ≤ st.apiCalls →
      enrich env st f = enrich env2 st f ∧
      (∀ (f' : Flight) (st' : EnricherState),
        enrich env st f = .ok (f', st') → st' = st) := by
  intro env env2 st f hdbf hnow hexh
  constructor
  · unfold enrich
    split
    · rfl
    · dsimp only
      rw [show enrich_hex_lookup env2 st f (pyStrip (asciiLower f.hex_code)) =
            enrich_hex_lookup env st f (pyStrip (asciiLower f.hex_code)) from by
        unfold enrich_hex_lookup
        rw [hdbf]]
      cases hh : enrich_hex_lookup env st f (pyStrip (asciiLower f.hex_code)) with
      | error e => simp only [hh]
      | ok f1 =>
        simp only [hh]
        split
        · exact enrich_route_env_irrelevant_when_exhausted env env2 st _ _
            hdbf hnow hexh
        · rfl
  · intro f' st' h
    unfold enrich at h
    split at h
    · cases h
      rfl
    · dsimp only at h
      split at h
      · cases h
      · split at h
        · exact enrich_route_exhausted_state env st _ _ f' st' hexh h
        · cases h
          rfl

def c7EnvA : Env where
  now := 1000000
  dbFails := false
  routeApi := fun _ => .exn
  airportApi := fun _ => .exn

def c7EnvB : Env where
  now := 1000000
  dbFails := false
  routeApi := fun _ => .ok 200 (.ok [{ dep_iata := "AAA", arr_iata := "BBB" }])
  airportApi := fun _ => .ok 200 (.ok [])

def c7St : EnricherState :=
  { airlabsKey := "k",
    routes := [{ callsign := "RYR4421", dep_iata := "STN", arr_iata := "DUB",
                 updated_at := 999999 }],
    apiCalls := 5, maxApiCalls := 5 }

/-- Witness for C7: with the counter at the maximum (5/5), two
environments with entirely different remote APIs produce the same result
for an unseen callsign; the fresh local route-cache row is still applied
(origin STN, destination DUB) and the state is unchanged. -/
theorem budget_exhausted_no_remote_calls_witness :
    enrich c7EnvA c7St { callsign := "RYR4421" } =
      enrich c7EnvB c7St { callsign := "RYR4421" } ∧
    enrich c7EnvA c7St { callsign := "RYR4421" } =
      .ok ({ callsign := "RYR4421", airline := "RYANAIR", origin_iata := "STN",
             destination_iata := "DUB" }, c7St) := by
  refine ⟨(budget_exhausted_no_remote_calls c7EnvA c7EnvB c7St
    { callsign := "RYR4421" } rfl rfl (by decide)).1, ?_⟩
  with_unfolding_all rfl

/-- Hex keys pairwise distinct, modelling the `hex` PRIMARY KEY of the
`aircraft` table. -/
def hexKeysUnique (l : List AircraftRow) : Prop :=
  l.Pairwise (fun a b => a.hex ≠ b.hex)

/-- Helper: under key uniqueness, rows with equal keys are equal. -/
lemma hexKeysUnique_eq {l : List AircraftRow} (h : hexKeysUnique l)
    {a b : AircraftRow} (ha : a ∈ l) (hb : b ∈ l) (hk : a.hex = b.hex) :
    a = b := by
  induction l with
  | nil => cases ha
  | cons x xs ih =>
    rcases List.pairwise_cons.mp h with ⟨hx, hxs⟩
    rcases List.mem_cons.mp ha with rfl | ha2 <;>
      rcases List.mem_cons.mp hb with rfl | hb2
    · rfl
    · exact absurd hk (hx b hb2)
    · exact absurd hk.symm (hx a ha2)
    · exact ih hxs ha2 hb2

/-- The row invariant of claim C2: every non-key field of an aircraft row
that was non-empty before a write is still non-empty after it. -/
def nonEmptyPreserved (r r' : AircraftRow) : Prop :=
  (r.registration ≠ "" → r'.registration ≠ "") ∧
  (r.typecode ≠ "" → r'.typecode ≠ "") ∧
  (r.model ≠ "" → r'.model ≠ "") ∧
  (r.operator ≠ "" → r'.operator ≠ "") ∧
  (r.operator_icao ≠ "" → r'.operator_icao ≠ "") ∧
  (r.operator_iata ≠ "" → r'.operator_iata ≠ "") ∧
  (r.owner ≠ "" → r'.owner ≠ "") ∧
  (r.source ≠ "" → r'.source ≠ "")

lemma nonEmptyPreserved_refl (r : AircraftRow) : nonEmptyPreserved r r := by
  simp [nonEmptyPreserved]

def c2Db : List AircraftRow :=
  [{ hex := "abc123", registration := "G-ABCD", source := "api_enriched" }]

/-- Counterexample to claim C2: the bulk CSV import (`seed_from_file`) is
`INSERT OR REPLACE INTO aircraft VALUES (...)`, a whole-row replacement
keyed by hex.  Importing a snapshot whose header has only `icao24` (so
every other column defaults to `""`) over a row whose registration is the
non-empty `"G-ABCD"` overwrites that registration with the empty string —
the import is destructive, contradicting the claimed invariant for every
write path. -/
theorem seed_from_file_overwrites_counterexample :
    (seed_from_file c2Db ["icao24"] [["abc123"]] 5).map
      (fun r => r.registration) = [""] ∧
    c2Db.map (fun r => r.registration) = ["G-ABCD"] := by
  constructor
  · decide
  · rfl

/-- Claim C2 (amended): the API-result merge path `_cache_aircraft` does
preserve the invariant — for every aircraft row present before and after
the write (same hex key, keys unique as the PRIMARY KEY guarantees), any
field that was non-empty is still non-empty afterwards; the bulk CSV seed
import, by contrast, is an `INSERT OR REPLACE` whole-row upsert that can
overwrite non-empty fields with empty strings (see the counterexample). -/
theorem cache_aircraft_never_empties_fields :
    ∀ (st : EnricherState) (hex reg tc op opIc : String) (now : ℚ)
      (r r' : AircraftRow),
      hexKeysUnique st.aircraft →
      r ∈ st.aircraft →
      r' ∈ (cache_aircraft st hex reg tc op opIc now).aircraft →
      r'.hex = r.hex →
      nonEmptyPreserved r r' := by
  intro st hex reg tc op opIc now r r' huniq hr hr' hkey
  unfold cache_aircraft at hr'
  split at hr'
  · cases hexKeysUnique_eq huniq hr' hr hkey
    exact nonEmptyPreserved_refl r
  · rename_i hhex
    split at hr'
    · rename_i ex hfind
      have hexmem : ex ∈ st.aircraft := List.mem_of_find?_eq_some hfind
      have hexhex : ex.hex = hex := by
        have := List.find?_some hfind
        simpa using this
      dsimp only at hr'
      split at hr'
      · unfold upsertBy at hr'
        rw [if_pos (List.any_eq_true.mpr ⟨ex, hexmem, by simpa using hexhex⟩)] at hr'
        rcases List.mem_map.mp hr' with ⟨x, hxmem, hx⟩
        by_cases hxh : (x.hex == hex) = true
        · rw [if_pos hxh] at hx
          subst hx
          have hexr : ex = r := hexKeysUnique_eq huniq hexmem hr hkey
          subst hexr
          refine ⟨?_, ?_, ?_, ?_, ?_, ?_, ?_, ?_⟩ <;> intro hne
          · dsimp only
            split
            · rename_i hu
              exact absurd hu.2 hne
            · exact hne
          · dsimp only
            split
            · rename_i hu
              exact absurd hu.2 hne
            · exact hne
          · exact hne
          · dsimp only
            split
            · rename_i hu
              exact absurd hu.2 hne
            · exact hne
          · dsimp only
            split
            · rename_i hu
              exact absurd hu.2 hne
            · exact hne
          · exact hne
          · exact hne
          · simp
        · rw [if_neg hxh] at hx
          subst hx
          cases hexKeysUnique_eq huniq hxmem hr hkey
          exact nonEmptyPreserved_refl _
      · cases hexKeysUnique_eq huniq hr' hr hkey
        exact nonEmptyPreserved_refl r
    · rename_i hfind
      dsimp only at hr'
      rcases List.mem_append.mp hr' with hmem | hmem
      · cases hexKeysUnique_eq huniq hmem hr hkey
        exact nonEmptyPreserved_refl r
      · have hnp := List.find?_eq_none.mp hfind r hr
        rcases List.mem_singleton.mp hmem with rfl
        exact absurd (by simpa using hkey.symm) (by simpa using hnp)

def c2St : EnricherState :=
  { aircraft := [{ hex := "abc123", registration := "G-ABCD" }] }

/-- Witness for the amended C2: merging API data (empty registration, new
typecode/operator) into a row whose registration is non-empty keeps that
registration; every previously non-empty field stays non-empty. -/
theorem cache_aircraft_never_empties_fields_witness :
    (cache_aircraft c2St "abc123" "" "B738" "RYANAIR" "RYR" 5).aircraft =
      [{ hex := "abc123", registration := "G-ABCD", typecode := "B738",
         operator := "RYANAIR", operator_icao := "RYR",
         source := "api_enriched", updated_at := 5 }] ∧
    nonEmptyPreserved
      { hex := "abc123", registration := "G-ABCD" }
      { hex := "abc123", registration := "G-ABCD", typecode := "B738",
        operator := "RYANAIR", operator_icao := "RYR",
        source := "api_enriched", updated_at := 5 } := by
  constructor
  · decide
  · exact cache_aircraft_never_empties_fields c2St "abc123" "" "B738" "RYANAIR"
      "RYR" 5 _ _ (by unfold hexKeysUnique c2St; simp) (by decide) (by decide) rfl
